import Mathlib

/-!
Shallow embedding of the SoRe booking-escrow and reputation contracts:
`TimeBooking.sol`, `ReputationTracker.sol` and `ReputationNFT.sol`.

Addresses, hashes and amounts are modelled as `Nat`; `block.timestamp` is an
explicit `now : Nat` argument; a reverting call is `none` (a revert undoes all
writes, so a failed operation leaves the pre-state unchanged).  Value
transfers performed by the contract are recorded in an explicit outflow
ledger.  Event emission and NFT token-URI strings carry no state and are not
modelled.
-/

namespace SoRe

/-- `EXPIRY_PERIOD = 5 days`, in seconds. -/
def EXPIRY_PERIOD : Nat := 5 * 86400

/-- `DISPUTE_PERIOD = 1 days`, in seconds. -/
def DISPUTE_PERIOD : Nat := 86400

/-- `MIN_SLOT_DURATION = 30 minutes`, in seconds. -/
def MIN_SLOT_DURATION : Nat := 30 * 60

/-- `enum BookingStatus` of `TimeBooking.sol`. -/
inductive BookingStatus where
  | Pending
  | Accepted
  | Rejected
  | Completed
  | Cancelled
  | Disputed
  | Expired
  deriving DecidableEq, Repr

/-- `struct Booking` of `TimeBooking.sol`. -/
structure Booking where
  bookingId : Nat
  tokenId : Nat
  buyer : Nat
  kol : Nat
  pricePerSlot : Nat
  totalSlots : Nat
  totalAmount : Nat
  fromTime : Nat
  toTime : Nat
  reason : String
  status : BookingStatus
  createdAt : Nat
  updatedAt : Nat
  sessionEndTime : Nat
  disputeReported : Bool
  rating : Nat
  ratingSubmitted : Bool
  deriving DecidableEq, Repr

/-- One value transfer out of the `TimeBooking` contract on behalf of a
booking: a refund to the buyer (`_refundBuyer`), the platform-fee leg or the
KOL leg of `releasePayment`. -/
inductive Outflow where
  | refund (recipient amount : Nat)
  | feePay (recipient amount : Nat)
  | kolPay (recipient amount : Nat)
  deriving DecidableEq, Repr

/-- The amount carried by an outflow. -/
def Outflow.amount : Outflow → Nat
  | .refund _ a => a
  | .feePay _ a => a
  | .kolPay _ a => a

/-- Sum of the amounts of a list of outflows. -/
def outflowSum (outs : List Outflow) : Nat :=
  (outs.map Outflow.amount).sum

/-- The slice of `TimeBooking` contract state that governs a single booking:
the booking record, the fee configuration (`platformFeePercent`,
`feeRecipient`), the contract owner, and the ledger of transfers already made
on behalf of this booking. -/
structure EscrowState where
  booking : Booking
  feeBps : Nat
  feeRecipient : Nat
  owner : Nat
  outflows : List Outflow
  deriving DecidableEq, Repr

/-- `acceptBooking`: requires `caller == kol`, status `Pending`, and
`block.timestamp < createdAt + EXPIRY_PERIOD`. -/
def acceptBooking (caller now : Nat) (s : EscrowState) : Option EscrowState :=
  let b := s.booking
  if b.kol = caller ∧ b.status = .Pending ∧ now < b.createdAt + EXPIRY_PERIOD then
    some { s with booking := { b with status := .Accepted, updatedAt := now } }
  else none

/-- `_refundBuyer`: transfer `totalAmount` back to the buyer. -/
def refundBuyer (b : Booking) (outs : List Outflow) : List Outflow :=
  outs ++ [.refund b.buyer b.totalAmount]

/-- `rejectBooking`: requires `caller == kol` and status `Pending`; moves to
`Rejected` and refunds the buyer. -/
def rejectBooking (caller now : Nat) (s : EscrowState) : Option EscrowState :=
  let b := s.booking
  if b.kol = caller ∧ b.status = .Pending then
    some { s with booking := { b with status := .Rejected, updatedAt := now },
                  outflows := refundBuyer b s.outflows }
  else none

/-- `cancelBooking`: requires `caller == buyer` and status `Pending`; moves to
`Cancelled` and refunds the buyer. -/
def cancelBooking (caller now : Nat) (s : EscrowState) : Option EscrowState :=
  let b := s.booking
  if b.buyer = caller ∧ b.status = .Pending then
    some { s with booking := { b with status := .Cancelled, updatedAt := now },
                  outflows := refundBuyer b s.outflows }
  else none

/-- `completeSession`: requires `caller == kol`, status `Accepted` and
`block.timestamp >= toTime`; records `sessionEndTime = now` and leaves the
status `Accepted`.  The source has no check that `sessionEndTime` is still
zero. -/
def completeSession (caller now : Nat) (s : EscrowState) : Option EscrowState :=
  let b := s.booking
  if b.kol = caller ∧ b.status = .Accepted ∧ b.toTime ≤ now then
    some { s with booking := { b with sessionEndTime := now, updatedAt := now } }
  else none

/-- `reportDispute`: requires `caller == buyer`, status `Accepted`,
`sessionEndTime > 0`, `block.timestamp <= sessionEndTime + DISPUTE_PERIOD` and
no earlier report; marks the dispute and moves to `Disputed`. -/
def reportDispute (caller now : Nat) (s : EscrowState) : Option EscrowState :=
  let b := s.booking
  if b.buyer = caller ∧ b.status = .Accepted ∧ 0 < b.sessionEndTime ∧
      now ≤ b.sessionEndTime + DISPUTE_PERIOD ∧ b.disputeReported = false then
    some { s with booking := { b with disputeReported := true, status := .Disputed,
                                      updatedAt := now } }
  else none

/-- `rateSession`: requires `caller == buyer`, status `Accepted` or
`Completed`, `sessionEndTime > 0`, `rating <= 50` and no earlier rating. -/
def rateSession (caller r now : Nat) (s : EscrowState) : Option EscrowState :=
  let b := s.booking
  if b.buyer = caller ∧ (b.status = .Accepted ∨ b.status = .Completed) ∧
      0 < b.sessionEndTime ∧ r ≤ 50 ∧ b.ratingSubmitted = false then
    some { s with booking := { b with rating := r, ratingSubmitted := true,
                                      updatedAt := now } }
  else none

/-- `releasePayment`: requires status `Accepted`, `sessionEndTime > 0`,
`block.timestamp > sessionEndTime + DISPUTE_PERIOD` and no dispute; moves to
`Completed` and splits the escrow into
`platformFee = totalAmount * platformFeePercent / 10000` to the fee recipient
(only transferred when positive) and `totalAmount - platformFee` to the KOL. -/
def releasePayment (now : Nat) (s : EscrowState) : Option EscrowState :=
  let b := s.booking
  if b.status = .Accepted ∧ 0 < b.sessionEndTime ∧
      b.sessionEndTime + DISPUTE_PERIOD < now ∧ b.disputeReported = false then
    let platformFee := b.totalAmount * s.feeBps / 10000
    let kolPayment := b.totalAmount - platformFee
    some { s with booking := { b with status := .Completed, updatedAt := now },
                  outflows := s.outflows
                    ++ (if 0 < platformFee then [.feePay s.feeRecipient platformFee] else [])
                    ++ [.kolPay b.kol kolPayment] }
  else none

/-- `handleExpiredBooking`: requires status `Pending` and
`block.timestamp >= createdAt + EXPIRY_PERIOD`; moves to `Expired` and refunds
the buyer. -/
def handleExpiredBooking (now : Nat) (s : EscrowState) : Option EscrowState :=
  let b := s.booking
  if b.status = .Pending ∧ b.createdAt + EXPIRY_PERIOD ≤ now then
    some { s with booking := { b with status := .Expired, updatedAt := now },
                  outflows := refundBuyer b s.outflows }
  else none

/-- `setPlatformFee`: owner only, at most 1000 basis points. -/
def setPlatformFee (caller newFee : Nat) (s : EscrowState) : Option EscrowState :=
  if caller = s.owner ∧ newFee ≤ 1000 then some { s with feeBps := newFee } else none

/-- `setFeeRecipient`: owner only, nonzero address. -/
def setFeeRecipient (caller addr : Nat) (s : EscrowState) : Option EscrowState :=
  if caller = s.owner ∧ addr ≠ 0 then some { s with feeRecipient := addr } else none

/-- One external call to the escrow engine, with its caller and the block
timestamp at which it runs. -/
inductive EscrowOp where
  | accept (caller now : Nat)
  | reject (caller now : Nat)
  | cancel (caller now : Nat)
  | complete (caller now : Nat)
  | dispute (caller now : Nat)
  | rate (caller r now : Nat)
  | release (now : Nat)
  | expire (now : Nat)
  | setFee (caller newFee : Nat)
  | setRecipient (caller addr : Nat)
  deriving DecidableEq, Repr

/-- Dispatch one escrow-engine call. -/
def applyOp : EscrowOp → EscrowState → Option EscrowState
  | .accept caller now => acceptBooking caller now
  | .reject caller now => rejectBooking caller now
  | .cancel caller now => cancelBooking caller now
  | .complete caller now => completeSession caller now
  | .dispute caller now => reportDispute caller now
  | .rate caller r now => rateSession caller r now
  | .release now => releasePayment now
  | .expire now => handleExpiredBooking now
  | .setFee caller newFee => setPlatformFee caller newFee
  | .setRecipient caller addr => setFeeRecipient caller addr

/-- Run one call; a revert leaves the state unchanged. -/
def runOp (op : EscrowOp) (s : EscrowState) : EscrowState :=
  (applyOp op s).getD s

/-- Run a sequence of calls. -/
def runOps : List EscrowOp → EscrowState → EscrowState
  | [], s => s
  | op :: ops, s => runOps ops (runOp op s)

/-- The booking record stored by `createBooking`: status `Pending`,
`totalAmount = pricePerSlot * totalSlots`, empty session bookkeeping. -/
def newBooking (id tok buyer kol pps slots ft tt now : Nat) (reason : String) : Booking :=
  { bookingId := id
    tokenId := tok
    buyer := buyer
    kol := kol
    pricePerSlot := pps
    totalSlots := slots
    totalAmount := pps * slots
    fromTime := ft
    toTime := tt
    reason := reason
    status := .Pending
    createdAt := now
    updatedAt := now
    sessionEndTime := 0
    disputeReported := false
    rating := 0
    ratingSubmitted := false }

/-- Per-booking escrow state right after `createBooking` stored the booking:
no transfer has been made on its behalf yet. -/
def initEscrow (id tok buyer kol pps slots ft tt now fr own f : Nat)
    (reason : String) : EscrowState :=
  { booking := newBooking id tok buyer kol pps slots ft tt now reason
    feeBps := f
    feeRecipient := fr
    owner := own
    outflows := [] }

/-- The four statuses from which no further transition is possible. -/
def isTerminal : BookingStatus → Bool
  | .Rejected => true
  | .Cancelled => true
  | .Expired => true
  | .Completed => true
  | _ => false

/-- The escrow-engine calls that transfer funds when they succeed. -/
def movesFunds : EscrowOp → Bool
  | .reject _ _ => true
  | .cancel _ _ => true
  | .release _ => true
  | .expire _ => true
  | _ => false

/-- Payout discipline of a per-booking escrow state: no outflow before a
fund-moving transition, exactly one full refund in the refund statuses,
exactly one fee/KOL split summing below `totalAmount`-bounded fee in
`Completed`, and nothing else. -/
def PayoutRecord (s : EscrowState) : Prop :=
  (s.booking.status = .Pending ∨ s.booking.status = .Accepted ∨
      s.booking.status = .Disputed → s.outflows = []) ∧
  (s.booking.status = .Rejected ∨ s.booking.status = .Cancelled ∨
      s.booking.status = .Expired →
    s.outflows = [.refund s.booking.buyer s.booking.totalAmount]) ∧
  (s.booking.status = .Completed →
    ∃ fee fr, fee ≤ s.booking.totalAmount ∧
      s.outflows = (if 0 < fee then [Outflow.feePay fr fee] else [])
        ++ [.kolPay s.booking.kol (s.booking.totalAmount - fee)])

/-- Invariant carried through every escrow-engine call: the platform fee never
exceeds the 1000-bps cap and the outflow ledger obeys `PayoutRecord`. -/
def EscrowInv (s : EscrowState) : Prop :=
  s.feeBps ≤ 1000 ∧ PayoutRecord s

/-! ### Whole-contract state of `TimeBooking`

Needed for `createBooking` (booking store, ticket mint, escrow balance,
per-party booking-id lists) and for `emergencyWithdraw`. -/

/-- Whole-contract view of `TimeBooking`: the `_bookingIds` and `_tokenIds`
counters, the booking store (booking `i` lives at list index `i - 1`), the
`buyerBookings` and `kolBookings` mappings, the minted NFT tickets, the ether
balance held by the contract, and the fee/owner configuration. -/
structure ContractState where
  bookingCount : Nat
  tokenCount : Nat
  bookings : List Booking
  buyerBookings : Nat → List Nat
  kolBookings : Nat → List Nat
  nftOwners : List (Nat × Nat)
  balance : Nat
  feeBps : Nat
  feeRecipient : Nat
  owner : Nat

/-- `createBooking`: validates the KOL address, self-booking, slot count, time
range, minimum duration and exact payment; then increments both counters,
mints the ticket NFT to the sender, stores the new booking, registers it in
both parties' lists and escrows `msg.value`. -/
def createBooking (sender kol pps slots ft tt : Nat) (reason : String)
    (now msgValue : Nat) (s : ContractState) : Option ContractState :=
  if kol ≠ 0 ∧ kol ≠ sender ∧ 0 < slots ∧ now < ft ∧ ft < tt ∧
      MIN_SLOT_DURATION * slots ≤ tt - ft ∧ msgValue = pps * slots then
    let newBookingId := s.bookingCount + 1
    let newTokenId := s.tokenCount + 1
    some { s with
      bookingCount := newBookingId
      tokenCount := newTokenId
      nftOwners := s.nftOwners ++ [(newTokenId, sender)]
      bookings := s.bookings
        ++ [newBooking newBookingId newTokenId sender kol pps slots ft tt now reason]
      buyerBookings := fun a =>
        if a = sender then s.buyerBookings a ++ [newBookingId] else s.buyerBookings a
      kolBookings := fun a =>
        if a = kol then s.kolBookings a ++ [newBookingId] else s.kolBookings a
      balance := s.balance + msgValue }
  else none

/-- Run `createBooking`; a revert leaves the contract state unchanged (and the
attempted `msg.value` is returned to the sender, so nothing is escrowed). -/
def runCreate (sender kol pps slots ft tt : Nat) (reason : String)
    (now msgValue : Nat) (s : ContractState) : ContractState :=
  (createBooking sender kol pps slots ft tt reason now msgValue s).getD s

/-- `emergencyWithdraw`: owner only; transfers the whole contract balance to
the owner.  The result pairs the new contract state with the transferred
amount. -/
def emergencyWithdraw (caller : Nat) (s : ContractState) :
    Option (ContractState × Nat) :=
  if caller = s.owner then some ({ s with balance := 0 }, s.balance) else none

/-- Total amount currently escrowed for bookings that are still open
(`Pending` or `Accepted`). -/
def escrowLiability (s : ContractState) : Nat :=
  ((s.bookings.filter fun b =>
      b.status = .Pending ∨ b.status = .Accepted).map Booking.totalAmount).sum

/-! ### `ReputationTracker.sol` and `ReputationNFT.sol` -/

/-- One STT in wei, the `1e18` scaling constant. -/
def E18 : Nat := 1000000000000000000

/-- `struct UserActivity` of `ReputationTracker.sol`; the
`hasInteractedWith` mapping is the set of counterparties already credited
for the diversity bonus. -/
structure UserActivity where
  totalTransactions : Nat
  totalVolumeTraded : Nat
  totalBookingsAsKOL : Nat
  totalBookingsAsBuyer : Nat
  totalBookingsCompleted : Nat
  totalRatingSum : Nat
  totalRatingCount : Nat
  lastActivityTime : Nat
  hasInteractedWith : Nat → Bool

/-- The all-zero `UserActivity` a fresh mapping slot holds. -/
def emptyActivity : UserActivity :=
  { totalTransactions := 0, totalVolumeTraded := 0, totalBookingsAsKOL := 0
    totalBookingsAsBuyer := 0, totalBookingsCompleted := 0, totalRatingSum := 0
    totalRatingCount := 0, lastActivityTime := 0, hasInteractedWith := fun _ => false }

/-- `struct PointConfig` of `ReputationTracker.sol`. -/
structure PointConfig where
  transactionBasePoints : Nat
  volumeMultiplier : Nat
  bookingCreatedPoints : Nat
  bookingAcceptedPoints : Nat
  bookingCompletedPoints : Nat
  highRatingBonus : Nat
  diversityBonus : Nat
  activityStreakBonus : Nat
  deriving DecidableEq, Repr

/-- The default `PointConfig` set in the constructor. -/
def defaultPointConfig : PointConfig :=
  { transactionBasePoints := 10, volumeMultiplier := 1, bookingCreatedPoints := 50
    bookingAcceptedPoints := 75, bookingCompletedPoints := 100, highRatingBonus := 25
    diversityBonus := 5, activityStreakBonus := 10 }

/-- `struct SocialMetrics` of `ReputationTracker.sol`. -/
structure SocialMetrics where
  xFollowers : Nat
  xEngagement : Nat
  discordActivity : Nat
  githubContributions : Nat
  xConnected : Bool
  discordConnected : Bool
  githubConnected : Bool
  deriving DecidableEq, Repr

/-- The all-zero `SocialMetrics` a fresh mapping slot holds. -/
def emptySocial : SocialMetrics :=
  { xFollowers := 0, xEngagement := 0, discordActivity := 0
    githubContributions := 0, xConnected := false, discordConnected := false
    githubConnected := false }

/-- Mutable state of `ReputationTracker`: activities, social metrics, token
holdings, the KOL-registration flags, the point configuration and the
processed-transaction set. -/
structure TrackerState where
  activities : Nat → UserActivity
  social : Nat → SocialMetrics
  holdings : Nat → Nat
  isRegisteredKOL : Nat → Bool
  pointConfig : PointConfig
  processed : Nat → Bool

/-- `enum ReputationLevel` of `ReputationNFT.sol`. -/
inductive ReputationLevel where
  | Bronze
  | Silver
  | Gold
  | Diamond
  deriving DecidableEq, Repr

/-- `struct ReputationData` of `ReputationNFT.sol`. -/
structure ReputationData where
  totalScore : Nat
  onchainScore : Nat
  socialScore : Nat
  tokenHoldingScore : Nat
  level : ReputationLevel
  transactionCount : Nat
  volumeTraded : Nat
  bookingsCompleted : Nat
  averageRating : Nat
  lastUpdated : Nat
  isKOL : Bool
  deriving DecidableEq, Repr

/-- The zero `ReputationData` stored for a freshly minted token at `now`. -/
def freshRep (now : Nat) : ReputationData :=
  { totalScore := 0, onchainScore := 0, socialScore := 0, tokenHoldingScore := 0
    level := .Bronze, transactionCount := 0, volumeTraded := 0
    bookingsCompleted := 0, averageRating := 0, lastUpdated := now, isKOL := false }

/-- `struct LevelThresholds` of `ReputationNFT.sol`. -/
structure LevelThresholds where
  bronze : Nat
  silver : Nat
  gold : Nat
  diamond : Nat
  deriving DecidableEq, Repr

/-- The default thresholds set in the `ReputationNFT` constructor. -/
def defaultThresholds : LevelThresholds :=
  { bronze := 0, silver := 1000, gold := 3000, diamond := 5000 }

/-- Mutable state of `ReputationNFT`: the token counter, the user-to-token
map, the per-token reputation data, the authorized-updater set, the contract
owner and the level thresholds. -/
structure NFTState where
  tokenCount : Nat
  userToTokenId : Nat → Nat
  reputationData : Nat → ReputationData
  authorizedUpdaters : Nat → Bool
  nftOwner : Nat
  thresholds : LevelThresholds

/-- `_calculateLevel`: map a score to a level by the configured thresholds. -/
def calculateLevel (th : LevelThresholds) (score : Nat) : ReputationLevel :=
  if th.diamond ≤ score then .Diamond
  else if th.gold ≤ score then .Gold
  else if th.silver ≤ score then .Silver
  else .Bronze

/-- `mintReputationNFT`: requires the user to have no token yet; assigns the
next token id, stores zeroed reputation data and records the ownership. -/
def mintReputationNFT (recipient now : Nat) (s : NFTState) : Option NFTState :=
  if s.userToTokenId recipient = 0 then
    let tokenId := s.tokenCount + 1
    some { s with
      tokenCount := tokenId
      reputationData := fun t => if t = tokenId then freshRep now else s.reputationData t
      userToTokenId := fun u => if u = recipient then tokenId else s.userToTokenId u }
  else none

/-- `updateReputation` of `ReputationNFT`: requires an authorized caller and a
minted token; overwrites the component scores and mirrored counters, stores
`totalScore = (onchain*50 + social*40 + tokenHolding*10) / 100` and the level
derived from the thresholds.  The `isKOL` field is not assigned, hence kept. -/
def updateReputation (caller user onchain social tokenH txCount vol completed
    avgRating now : Nat) (s : NFTState) : Option NFTState :=
  if s.authorizedUpdaters caller = true ∨ caller = s.nftOwner then
    let tokenId := s.userToTokenId user
    if tokenId ≠ 0 then
      let total := (onchain * 50 + social * 40 + tokenH * 10) / 100
      some { s with reputationData := fun t =>
        if t = tokenId then
          { totalScore := total
            onchainScore := onchain
            socialScore := social
            tokenHoldingScore := tokenH
            level := calculateLevel s.thresholds total
            transactionCount := txCount
            volumeTraded := vol
            bookingsCompleted := completed
            averageRating := avgRating
            lastUpdated := now
            isKOL := (s.reputationData tokenId).isKOL }
        else s.reputationData t }
    else none
  else none

/-- `setKOLStatus` of `ReputationNFT`: requires an authorized caller and a
minted token; assigns the `isKOL` flag to the given boolean. -/
def setKOLStatus (caller user : Nat) (flag : Bool) (s : NFTState) : Option NFTState :=
  if s.authorizedUpdaters caller = true ∨ caller = s.nftOwner then
    let tokenId := s.userToTokenId user
    if tokenId ≠ 0 then
      some { s with reputationData := fun t =>
        if t = tokenId then { s.reputationData tokenId with isKOL := flag }
        else s.reputationData t }
    else none
  else none

/-- `updateLevelThresholds` of `ReputationNFT`: owner only. -/
def updateLevelThresholds (caller b si g d : Nat) (s : NFTState) : Option NFTState :=
  if caller = s.nftOwner then
    some { s with thresholds := { bronze := b, silver := si, gold := g, diamond := d } }
  else none

/-- `setAuthorizedUpdater` of `ReputationNFT`: owner only. -/
def setAuthorizedUpdater (caller updater : Nat) (authorized : Bool)
    (s : NFTState) : Option NFTState :=
  if caller = s.nftOwner then
    some { s with authorizedUpdaters := fun a =>
      if a = updater then authorized else s.authorizedUpdaters a }
  else none

/-- Combined deployment: the tracker contract (at address `trackerAddr`, owned
by `trackerOwner`), the NFT contract it updates, and the `TimeBooking`
contract address whose callbacks the tracker trusts. -/
structure RepSystem where
  tracker : TrackerState
  nft : NFTState
  trackerAddr : Nat
  timeBookingAddr : Nat
  trackerOwner : Nat

/-- `calculateOnchainScore`: weighted sum of the activity counters, plus the
high-rating bonus when the average rating reaches 45/50. -/
def calculateOnchainScore (s : TrackerState) (user : Nat) : Nat :=
  let a := s.activities user
  let c := s.pointConfig
  let base := a.totalTransactions * c.transactionBasePoints
    + a.totalVolumeTraded * c.volumeMultiplier / E18
    + a.totalBookingsAsBuyer * c.bookingCreatedPoints
    + a.totalBookingsAsKOL * c.bookingAcceptedPoints
    + a.totalBookingsCompleted * c.bookingCompletedPoints
  if 0 < a.totalRatingCount ∧ 45 ≤ a.totalRatingSum / a.totalRatingCount then
    base + c.highRatingBonus * a.totalBookingsCompleted
  else base

/-- `calculateSocialScore`: per-platform metrics plus 100 points per
connected platform. -/
def calculateSocialScore (s : TrackerState) (user : Nat) : Nat :=
  let m := s.social user
  (if m.xConnected then m.xFollowers / 10 + m.xEngagement / 5 else 0)
  + (if m.discordConnected then m.discordActivity else 0)
  + (if m.githubConnected then m.githubContributions * 2 else 0)
  + ((if m.xConnected then 1 else 0) + (if m.discordConnected then 1 else 0)
      + (if m.githubConnected then 1 else 0)) * 100

/-- `calculateTokenHoldingScore`: one point per 100 STT held. -/
def calculateTokenHoldingScore (s : TrackerState) (user : Nat) : Nat :=
  s.holdings user / (100 * E18)

/-- `_calculateTotalScore`: 50% onchain, 40% social, 10% token holding,
integer division. -/
def calculateTotalScore (s : TrackerState) (user : Nat) : Nat :=
  (calculateOnchainScore s user * 50 + calculateSocialScore s user * 40
    + calculateTokenHoldingScore s user * 10) / 100

/-- `_updateUserReputation` of the tracker: a no-op for unregistered users,
otherwise recomputes the three component scores and the average rating from
the raw counters and pushes them into the NFT (the tracker is the caller of
`updateReputation`, so that call reverts unless the tracker is authorized). -/
def updateUserRep (user now : Nat) (sys : RepSystem) : Option RepSystem :=
  if sys.nft.userToTokenId user = 0 then some sys
  else
    let a := sys.tracker.activities user
    let avg := if 0 < a.totalRatingCount then a.totalRatingSum / a.totalRatingCount else 0
    (updateReputation sys.trackerAddr user
        (calculateOnchainScore sys.tracker user)
        (calculateSocialScore sys.tracker user)
        (calculateTokenHoldingScore sys.tracker user)
        a.totalTransactions a.totalVolumeTraded a.totalBookingsCompleted avg now
        sys.nft).map fun nftNew => { sys with nft := nftNew }

/-- `trackTransaction`: rejects an already-processed `txHash` before touching
any counter; otherwise marks it processed, bumps the transaction and volume
counters, records the counterparty in the diversity set on first interaction,
and refreshes the reputation NFT. -/
def trackTransaction (user value interactedWith txHash now : Nat)
    (sys : RepSystem) : Option RepSystem :=
  if sys.tracker.processed txHash = false then
    let a := sys.tracker.activities user
    let a1 := { a with
      totalTransactions := a.totalTransactions + 1
      totalVolumeTraded := a.totalVolumeTraded + value
      lastActivityTime := now
      hasInteractedWith := fun x =>
        if interactedWith ≠ 0 ∧ a.hasInteractedWith interactedWith = false ∧
            x = interactedWith then true
        else a.hasInteractedWith x }
    let sys1 := { sys with tracker := { sys.tracker with
      processed := fun t => if t = txHash then true else sys.tracker.processed t
      activities := fun u => if u = user then a1 else sys.tracker.activities u } }
    updateUserRep user now sys1
  else none

/-- `trackBookingCreated`: only callable by the `TimeBooking` contract; bumps
the buyer's created-bookings counter and refreshes the NFT. -/
def trackBookingCreated (caller buyer now : Nat) (sys : RepSystem) : Option RepSystem :=
  if caller = sys.timeBookingAddr then
    let a := sys.tracker.activities buyer
    let a1 := { a with totalBookingsAsBuyer := a.totalBookingsAsBuyer + 1
                       lastActivityTime := now }
    let sys1 := { sys with tracker := { sys.tracker with
      activities := fun u => if u = buyer then a1 else sys.tracker.activities u } }
    updateUserRep buyer now sys1
  else none

/-- `trackBookingAccepted`: only callable by the `TimeBooking` contract; bumps
the KOL counter, refreshes the NFT, and on the first acceptance registers the
user as KOL and sets the NFT `isKOL` flag to true. -/
def trackBookingAccepted (caller kol now : Nat) (sys : RepSystem) : Option RepSystem :=
  if caller = sys.timeBookingAddr then
    let a := sys.tracker.activities kol
    let a1 := { a with totalBookingsAsKOL := a.totalBookingsAsKOL + 1
                       lastActivityTime := now }
    let sys1 := { sys with tracker := { sys.tracker with
      activities := fun u => if u = kol then a1 else sys.tracker.activities u } }
    (updateUserRep kol now sys1).bind fun sys2 =>
      if sys2.tracker.isRegisteredKOL kol = false then
        (setKOLStatus sys2.trackerAddr kol true sys2.nft).map fun nftNew =>
          { sys2 with
            nft := nftNew
            tracker := { sys2.tracker with isRegisteredKOL := fun u =>
              if u = kol then true else sys2.tracker.isRegisteredKOL u } }
      else some sys2
  else none

/-- `trackBookingCompleted`: only callable by the `TimeBooking` contract;
credits the KOL's completion and rating counters and the buyer's completion
counter, then refreshes both NFTs. -/
def trackBookingCompleted (caller kol buyer rating now : Nat)
    (sys : RepSystem) : Option RepSystem :=
  if caller = sys.timeBookingAddr then
    let ak := sys.tracker.activities kol
    let ak1 := { ak with
      totalBookingsCompleted := ak.totalBookingsCompleted + 1
      totalRatingSum := ak.totalRatingSum + rating
      totalRatingCount := ak.totalRatingCount + 1
      lastActivityTime := now }
    let sys1 := { sys with tracker := { sys.tracker with
      activities := fun u => if u = kol then ak1 else sys.tracker.activities u } }
    let ab := sys1.tracker.activities buyer
    let ab1 := { ab with
      totalBookingsCompleted := ab.totalBookingsCompleted + 1
      lastActivityTime := now }
    let sys2 := { sys1 with tracker := { sys1.tracker with
      activities := fun u => if u = buyer then ab1 else sys1.tracker.activities u } }
    (updateUserRep kol now sys2).bind (updateUserRep buyer now)
  else none

/-- `updateTokenHoldings`: the owner or the user themselves stores the new
balance, then refreshes the NFT. -/
def updateTokenHoldings (caller user bal now : Nat) (sys : RepSystem) : Option RepSystem :=
  if caller = sys.trackerOwner ∨ caller = user then
    let sys1 := { sys with tracker := { sys.tracker with
      holdings := fun u => if u = user then bal else sys.tracker.holdings u } }
    updateUserRep user now sys1
  else none

/-- `updateSocialMetrics`: the owner or the user themselves stores the new
metrics, then refreshes the NFT. -/
def updateSocialMetrics (caller user : Nat) (m : SocialMetrics) (now : Nat)
    (sys : RepSystem) : Option RepSystem :=
  if caller = sys.trackerOwner ∨ caller = user then
    let sys1 := { sys with tracker := { sys.tracker with
      social := fun u => if u = user then m else sys.tracker.social u } }
    updateUserRep user now sys1
  else none

/-- `registerUser`: mints the reputation NFT for the sender (reverts when one
exists) and stamps the first activity time. -/
def registerUser (sender now : Nat) (sys : RepSystem) : Option RepSystem :=
  (mintReputationNFT sender now sys.nft).map fun nftNew =>
    { sys with
      nft := nftNew
      tracker := { sys.tracker with activities := fun u =>
        (if u = sender then { sys.tracker.activities u with lastActivityTime := now }
         else sys.tracker.activities u) } }

/-- `updatePointConfig`: tracker owner only. -/
def updatePointConfig (caller : Nat) (cfg : PointConfig) (sys : RepSystem) :
    Option RepSystem :=
  if caller = sys.trackerOwner then
    some { sys with tracker := { sys.tracker with pointConfig := cfg } }
  else none

/-- `bulkUpdateReputations`: tracker owner only; refreshes each listed user in
order, reverting the whole call if any single refresh reverts. -/
def bulkUpdateReputations (caller : Nat) (users : List Nat) (now : Nat)
    (sys : RepSystem) : Option RepSystem :=
  if caller = sys.trackerOwner then
    users.foldlM (fun acc u => updateUserRep u now acc) sys
  else none

/-- One external call into the reputation system (tracker or NFT), with its
caller where the source checks one. -/
inductive RepOp where
  | track (user value interactedWith txHash now : Nat)
  | bookingCreated (caller buyer now : Nat)
  | bookingAccepted (caller kol now : Nat)
  | bookingCompleted (caller kol buyer rating now : Nat)
  | tokenHoldings (caller user bal now : Nat)
  | socialUpdate (caller user : Nat) (m : SocialMetrics) (now : Nat)
  | register (sender now : Nat)
  | setConfig (caller : Nat) (cfg : PointConfig)
  | bulkUpdate (caller : Nat) (users : List Nat) (now : Nat)
  | mint (recipient now : Nat)
  | updateRep (caller user onchain social tokenH txCount vol completed avgRating now : Nat)
  | setKOL (caller user : Nat) (flag : Bool)
  | setThresholds (caller b si g d : Nat)
  | setUpdater (caller updater : Nat) (authorized : Bool)

/-- Dispatch one reputation-system call. -/
def applyRepOp : RepOp → RepSystem → Option RepSystem
  | .track user value iw tx now => trackTransaction user value iw tx now
  | .bookingCreated caller buyer now => trackBookingCreated caller buyer now
  | .bookingAccepted caller kol now => trackBookingAccepted caller kol now
  | .bookingCompleted caller kol buyer rating now =>
      trackBookingCompleted caller kol buyer rating now
  | .tokenHoldings caller user bal now => updateTokenHoldings caller user bal now
  | .socialUpdate caller user m now => updateSocialMetrics caller user m now
  | .register sender now => registerUser sender now
  | .setConfig caller cfg => updatePointConfig caller cfg
  | .bulkUpdate caller users now => bulkUpdateReputations caller users now
  | .mint recipient now => fun sys =>
      (mintReputationNFT recipient now sys.nft).map fun nftNew => { sys with nft := nftNew }
  | .updateRep caller user onchain social tokenH txCount vol completed avgRating now =>
      fun sys =>
        (updateReputation caller user onchain social tokenH txCount vol completed
            avgRating now sys.nft).map fun nftNew => { sys with nft := nftNew }
  | .setKOL caller user flag => fun sys =>
      (setKOLStatus caller user flag sys.nft).map fun nftNew => { sys with nft := nftNew }
  | .setThresholds caller b si g d => fun sys =>
      (updateLevelThresholds caller b si g d sys.nft).map fun nftNew =>
        { sys with nft := nftNew }
  | .setUpdater caller updater authorized => fun sys =>
      (setAuthorizedUpdater caller updater authorized sys.nft).map fun nftNew =>
        { sys with nft := nftNew }

/-- Run one reputation-system call; a revert leaves the state unchanged. -/
def runRepOp (op : RepOp) (sys : RepSystem) : RepSystem :=
  (applyRepOp op sys).getD sys

/-- Run a sequence of reputation-system calls. -/
def runRepOps : List RepOp → RepSystem → RepSystem
  | [], sys => sys
  | op :: ops, sys => runRepOps ops (runRepOp op sys)

/-- Whether an operation is a direct `ReputationNFT.setKOLStatus` call with
flag `false`. -/
def writesKOLFalse : RepOp → Bool
  | .setKOL _ _ false => true
  | _ => false

/-! ### Concrete states used to instantiate the theorems -/

/-- A freshly created demo booking: buyer `1` pays `2` slots at `500` wei
(`totalAmount = 1000`) to KOL `2`, created at time `1000`. -/
def demoPending : EscrowState :=
  initEscrow 1 1 1 2 500 2 3600 7200 1000 9 7 250 "demo"

/-- The demo booking after the KOL accepted it and ended the session at time
`100000`. -/
def demoAccepted : EscrowState :=
  { demoPending with booking :=
      { demoPending.booking with status := .Accepted, sessionEndTime := 100000 } }

/-- An accepted demo booking whose session has not been marked ended yet
(`toTime = 7200`). -/
def demoSession : EscrowState :=
  { demoPending with booking := { demoPending.booking with status := .Accepted } }

/-- The accepted demo booking after the KOL called `completeSession` at time
`8000`. -/
def demoCompletedOnce : EscrowState := runOp (.complete 2 8000) demoSession

/-- An empty demo `TimeBooking` contract owned by `7`, holding `1000` wei. -/
def demoContract : ContractState :=
  { bookingCount := 0, tokenCount := 0, bookings := []
    buyerBookings := fun _ => [], kolBookings := fun _ => []
    nftOwners := [], balance := 1000, feeBps := 250, feeRecipient := 9, owner := 7 }

/-- A demo `TimeBooking` contract holding the demo bookings, owned by `7`,
with `1500` wei of balance (the two open escrows plus dust). -/
def demoContractFull : ContractState :=
  { demoContract with
      bookingCount := 2
      tokenCount := 2
      bookings := [demoPending.booking, demoAccepted.booking]
      balance := 2100 }

/-- A demo `ReputationNFT` deployment: user `5` holds token `1`, the tracker
contract (address `100`) is an authorized updater, the owner is `8`. -/
def nftDemo : NFTState :=
  { tokenCount := 1
    userToTokenId := fun u => if u = 5 then 1 else 0
    reputationData := fun _ => freshRep 0
    authorizedUpdaters := fun a => a == 100
    nftOwner := 8
    thresholds := defaultThresholds }

/-- A demo `ReputationTracker` state with all counters at zero and the default
point configuration. -/
def trackerDemo : TrackerState :=
  { activities := fun _ => emptyActivity, social := fun _ => emptySocial
    holdings := fun _ => 0, isRegisteredKOL := fun _ => false
    pointConfig := defaultPointConfig, processed := fun _ => false }

/-- The combined demo deployment: tracker at `100` owned by `7`, trusting the
`TimeBooking` contract at `200`. -/
def sysDemo : RepSystem :=
  { tracker := trackerDemo, nft := nftDemo, trackerAddr := 100
    timeBookingAddr := 200, trackerOwner := 7 }

/-- The demo deployment after `TimeBooking` reported that KOL `5` accepted a
booking at time `1000` (which set the `isKOL` flag of token `1`). -/
def sysAfterAccept : RepSystem := runRepOp (.bookingAccepted 200 5 1000) sysDemo

/-! ## Theorems -/

/-- The platform fee computed at any basis-point rate up to 10000 never
exceeds the escrowed total. -/
theorem fee_le_total (total f : Nat) (hf : f ≤ 10000) : total * f / 10000 ≤ total := by
  calc total * f / 10000 ≤ total * 10000 / 10000 :=
        Nat.div_le_div_right (Nat.mul_le_mul_left total hf)
    _ = total := Nat.mul_div_cancel total (by norm_num)

/-- A reverted escrow call leaves the per-booking state unchanged. -/
theorem runOp_id_of_none {op : EscrowOp} {s : EscrowState}
    (h : applyOp op s = none) : runOp op s = s := by
  simp [runOp, h]

/-- `releasePayment` reverts on a booking that is already `Completed`. -/
theorem releasePayment_none_of_completed (s : EscrowState) (now : Nat)
    (h : s.booking.status = .Completed) : releasePayment now s = none := by
  simp only [releasePayment]
  rw [if_neg]
  rintro ⟨hbad, -⟩
  rw [h] at hbad
  exact absurd hbad (by decide)

/-- A `releasePayment` call on an already-completed booking is a rejected
no-op. -/
theorem runRelease_id_of_completed (s : EscrowState) (later : Nat)
    (h : s.booking.status = .Completed) : runOp (.release later) s = s :=
  runOp_id_of_none (releasePayment_none_of_completed s later h)

/-- Every escrow-engine call preserves the escrow invariant. -/
theorem escrowInv_runOp (op : EscrowOp) (s : EscrowState) (h : EscrowInv s) :
    EscrowInv (runOp op s) := by
  obtain ⟨hfee, hopen, href, hcomp⟩ := h
  cases op with
  | accept caller now =>
    simp only [runOp, applyOp, acceptBooking]
    split
    next hc =>
      obtain ⟨hk, hst, hlt⟩ := hc
      simp only [Option.getD_some]
      refine ⟨hfee, ?_, ?_, ?_⟩
      · intro _; exact hopen (Or.inl hst)
      · rintro (h1 | h1 | h1) <;> simp at h1
      · intro h1; simp at h1
    next => exact ⟨hfee, hopen, href, hcomp⟩
  | reject caller now =>
    simp only [runOp, applyOp, rejectBooking]
    split
    next hc =>
      obtain ⟨hk, hst⟩ := hc
      simp only [Option.getD_some]
      refine ⟨hfee, ?_, ?_, ?_⟩
      · rintro (h1 | h1 | h1) <;> simp at h1
      · intro _
        simp only [refundBuyer, hopen (Or.inl hst), List.nil_append]
      · intro h1; simp at h1
    next => exact ⟨hfee, hopen, href, hcomp⟩
  | cancel caller now =>
    simp only [runOp, applyOp, cancelBooking]
    split
    next hc =>
      obtain ⟨hb, hst⟩ := hc
      simp only [Option.getD_some]
      refine ⟨hfee, ?_, ?_, ?_⟩
      · rintro (h1 | h1 | h1) <;> simp at h1
      · intro _
        simp only [refundBuyer, hopen (Or.inl hst), List.nil_append]
      · intro h1; simp at h1
    next => exact ⟨hfee, hopen, href, hcomp⟩
  | complete caller now =>
    simp only [runOp, applyOp, completeSession]
    split
    next hc => exact ⟨hfee, hopen, href, hcomp⟩
    next => exact ⟨hfee, hopen, href, hcomp⟩
  | dispute caller now =>
    simp only [runOp, applyOp, reportDispute]
    split
    next hc =>
      obtain ⟨hb, hst, hse, hwin, hnd⟩ := hc
      simp only [Option.getD_some]
      refine ⟨hfee, ?_, ?_, ?_⟩
      · intro _; exact hopen (Or.inr (Or.inl hst))
      · rintro (h1 | h1 | h1) <;> simp at h1
      · intro h1; simp at h1
    next => exact ⟨hfee, hopen, href, hcomp⟩
  | rate caller r now =>
    simp only [runOp, applyOp, rateSession]
    split
    next hc => exact ⟨hfee, hopen, href, hcomp⟩
    next => exact ⟨hfee, hopen, href, hcomp⟩
  | release now =>
    simp only [runOp, applyOp, releasePayment]
    split
    next hc =>
      obtain ⟨hst, hse, hwin, hnd⟩ := hc
      simp only [Option.getD_some]
      refine ⟨hfee, ?_, ?_, ?_⟩
      · rintro (h1 | h1 | h1) <;> simp at h1
      · rintro (h1 | h1 | h1) <;> simp at h1
      · intro _
        refine ⟨s.booking.totalAmount * s.feeBps / 10000, s.feeRecipient,
          fee_le_total _ _ (le_trans hfee (by norm_num)), ?_⟩
        simp only [hopen (Or.inr (Or.inl hst)), List.nil_append, List.append_assoc]
    next => exact ⟨hfee, hopen, href, hcomp⟩
  | expire now =>
    simp only [runOp, applyOp, handleExpiredBooking]
    split
    next hc =>
      obtain ⟨hst, hexp⟩ := hc
      simp only [Option.getD_some]
      refine ⟨hfee, ?_, ?_, ?_⟩
      · rintro (h1 | h1 | h1) <;> simp at h1
      · intro _
        simp only [refundBuyer, hopen (Or.inl hst), List.nil_append]
      · intro h1; simp at h1
    next => exact ⟨hfee, hopen, href, hcomp⟩
  | setFee caller newFee =>
    simp only [runOp, applyOp, setPlatformFee]
    split
    next hc => exact ⟨hc.2, hopen, href, hcomp⟩
    next => exact ⟨hfee, hopen, href, hcomp⟩
  | setRecipient caller addr =>
    simp only [runOp, applyOp, setFeeRecipient]
    split
    next hc => exact ⟨hfee, hopen, href, hcomp⟩
    next => exact ⟨hfee, hopen, href, hcomp⟩

/-- The escrow invariant holds for every sequence of calls from an
invariant state. -/
theorem escrowInv_runOps (ops : List EscrowOp) (s : EscrowState)
    (h : EscrowInv s) : EscrowInv (runOps ops s) := by
  induction ops generalizing s with
  | nil => exact h
  | cons op rest ih => exact ih _ (escrowInv_runOp op s h)

/-- The escrow invariant holds right after `createBooking` when the platform
fee respects its 1000-bps cap. -/
theorem escrowInv_init (id tok buyer kol pps slots ft tt now fr own f : Nat)
    (reason : String) (hf : f ≤ 1000) :
    EscrowInv (initEscrow id tok buyer kol pps slots ft tt now fr own f reason) := by
  refine ⟨hf, fun _ => rfl, ?_, ?_⟩
  · rintro (h1 | h1 | h1) <;> simp [initEscrow, newBooking] at h1
  · intro h1; simp [initEscrow, newBooking] at h1

/-- From a terminal status no fund-moving escrow call succeeds. -/
theorem terminal_blocks_funds (s : EscrowState) (op : EscrowOp)
    (hterm : isTerminal s.booking.status = true) (hmv : movesFunds op = true) :
    applyOp op s = none := by
  have hst : s.booking.status ≠ .Pending ∧ s.booking.status ≠ .Accepted := by
    cases h : s.booking.status <;> simp [isTerminal, h] at hterm ⊢
  cases op with
  | reject caller now =>
    simp only [applyOp, rejectBooking]
    rw [if_neg]
    rintro ⟨-, hp⟩
    exact hst.1 hp
  | cancel caller now =>
    simp only [applyOp, cancelBooking]
    rw [if_neg]
    rintro ⟨-, hp⟩
    exact hst.1 hp
  | release now =>
    simp only [applyOp, releasePayment]
    rw [if_neg]
    rintro ⟨ha, -⟩
    exact hst.2 ha
  | expire now =>
    simp only [applyOp, handleExpiredBooking]
    rw [if_neg]
    rintro ⟨hp, -⟩
    exact hst.1 hp
  | accept caller now => simp [movesFunds] at hmv
  | complete caller now => simp [movesFunds] at hmv
  | dispute caller now => simp [movesFunds] at hmv
  | rate caller r now => simp [movesFunds] at hmv
  | setFee caller newFee => simp [movesFunds] at hmv
  | setRecipient caller addr => simp [movesFunds] at hmv

/-- In a terminal status the recorded outflows sum to exactly
`totalAmount`. -/
theorem outflowSum_of_terminal (s : EscrowState) (hpr : PayoutRecord s)
    (hterm : isTerminal s.booking.status = true) :
    outflowSum s.outflows = s.booking.totalAmount := by
  obtain ⟨hopen, href, hcomp⟩ := hpr
  cases h : s.booking.status with
  | Pending => rw [h] at hterm; exact absurd hterm (by decide)
  | Accepted => rw [h] at hterm; exact absurd hterm (by decide)
  | Disputed => rw [h] at hterm; exact absurd hterm (by decide)
  | Rejected =>
    rw [href (Or.inl h)]
    simp [outflowSum, Outflow.amount]
  | Cancelled =>
    rw [href (Or.inr (Or.inl h))]
    simp [outflowSum, Outflow.amount]
  | Expired =>
    rw [href (Or.inr (Or.inr h))]
    simp [outflowSum, Outflow.amount]
  | Completed =>
    obtain ⟨fee, fr, hle, heq⟩ := hcomp h
    rw [heq]
    by_cases hpos : 0 < fee
    · simp only [if_pos hpos, outflowSum, List.map_append, List.sum_append,
        List.map_cons, List.map_nil, List.sum_cons, List.sum_nil, Outflow.amount]
      omega
    · simp only [if_neg hpos, outflowSum, List.map_append, List.sum_append,
        List.map_cons, List.map_nil, List.sum_cons, List.sum_nil, Outflow.amount]
      omega

/-- Claim C1: over every sequence of escrow-engine calls after a booking's
creation the outflow ledger always matches the status — empty while the
booking is `Pending`, `Accepted` or `Disputed`; exactly one full refund of
`totalAmount` to the buyer in `Rejected`, `Cancelled` or `Expired`; exactly
one fee/KOL split in `Completed` — in a terminal status the outflows sum to
exactly `totalAmount`, and from a terminal status every fund-moving call
fails. -/
theorem escrow_payout_exactly_once (ops : List EscrowOp)
    (id tok buyer kol pps slots ft tt now fr own f : Nat) (reason : String)
    (hf : f ≤ 1000) :
    PayoutRecord (runOps ops
      (initEscrow id tok buyer kol pps slots ft tt now fr own f reason)) ∧
    (isTerminal (runOps ops
        (initEscrow id tok buyer kol pps slots ft tt now fr own f reason)).booking.status
        = true →
      outflowSum (runOps ops
          (initEscrow id tok buyer kol pps slots ft tt now fr own f reason)).outflows
        = (runOps ops
            (initEscrow id tok buyer kol pps slots ft tt now fr own f
              reason)).booking.totalAmount) ∧
    (∀ op, isTerminal (runOps ops
        (initEscrow id tok buyer kol pps slots ft tt now fr own f reason)).booking.status
        = true →
      movesFunds op = true →
      applyOp op (runOps ops
        (initEscrow id tok buyer kol pps slots ft tt now fr own f reason)) = none) := by
  have hinv := escrowInv_runOps ops _
    (escrowInv_init id tok buyer kol pps slots ft tt now fr own f reason hf)
  exact ⟨hinv.2, fun ht => outflowSum_of_terminal _ hinv.2 ht,
    fun op ht hmv => terminal_blocks_funds _ op ht hmv⟩

/-- Claim C1 instance: running accept, complete and release on the demo
booking ends in a terminal state whose outflows sum to the full `1000` wei,
and a further fund-moving call (the buyer cancelling) fails. -/
theorem escrow_payout_exactly_once_holds :
    PayoutRecord (runOps [.accept 2 2000, .complete 2 8000, .release 100000]
      (initEscrow 1 1 1 2 500 2 3600 7200 1000 9 7 250 "demo")) ∧
    outflowSum (runOps [.accept 2 2000, .complete 2 8000, .release 100000]
        (initEscrow 1 1 1 2 500 2 3600 7200 1000 9 7 250 "demo")).outflows
      = (runOps [.accept 2 2000, .complete 2 8000, .release 100000]
          (initEscrow 1 1 1 2 500 2 3600 7200 1000 9 7 250 "demo")).booking.totalAmount ∧
    applyOp (.cancel 1 200000)
      (runOps [.accept 2 2000, .complete 2 8000, .release 100000]
        (initEscrow 1 1 1 2 500 2 3600 7200 1000 9 7 250 "demo")) = none := by
  have h := escrow_payout_exactly_once
    [.accept 2 2000, .complete 2 8000, .release 100000]
    1 1 1 2 500 2 3600 7200 1000 9 7 250 "demo" (by decide)
  exact ⟨h.1, h.2.1 (by decide), h.2.2 (.cancel 1 200000) (by decide) (by decide)⟩

/-- Claim C2: for an `Accepted` booking with the session ended, no dispute and
the dispute window over, `releasePayment` succeeds, pays
`fee = totalAmount * platformFeePercent / 10000` (integer division) to the
fee recipient and `totalAmount - fee` to the KOL, and the two legs sum to
exactly `totalAmount`. -/
theorem releasePayment_fee_split (s : EscrowState) (now : Nat)
    (hst : s.booking.status = .Accepted) (hse : 0 < s.booking.sessionEndTime)
    (ht : s.booking.sessionEndTime + DISPUTE_PERIOD < now)
    (hnd : s.booking.disputeReported = false) (hf : s.feeBps ≤ 10000) :
    releasePayment now s = some { s with
      booking := { s.booking with status := .Completed, updatedAt := now }
      outflows := s.outflows
        ++ (if 0 < s.booking.totalAmount * s.feeBps / 10000
            then [.feePay s.feeRecipient (s.booking.totalAmount * s.feeBps / 10000)]
            else [])
        ++ [.kolPay s.booking.kol
              (s.booking.totalAmount - s.booking.totalAmount * s.feeBps / 10000)] } ∧
    s.booking.totalAmount * s.feeBps / 10000
      + (s.booking.totalAmount - s.booking.totalAmount * s.feeBps / 10000)
      = s.booking.totalAmount := by
  refine ⟨?_, Nat.add_sub_cancel' (fee_le_total _ _ hf)⟩
  simp only [releasePayment]
  rw [if_pos ⟨hst, hse, ht, hnd⟩]

/-- Claim C2 instance: on the demo booking (`totalAmount = 1000`, fee 250 bps)
releasing at time `200000` pays fee `25` and KOL payment `975`, which sum to
`1000`. -/
theorem releasePayment_fee_split_instance :
    releasePayment 200000 demoAccepted = some { demoAccepted with
      booking := { demoAccepted.booking with status := .Completed, updatedAt := 200000 }
      outflows := [.feePay 9 25, .kolPay 2 975] } ∧
    25 + 975 = 1000 := by
  have h := releasePayment_fee_split demoAccepted 200000 rfl (by decide)
    (by decide) rfl (by decide)
  exact ⟨h.1, rfl⟩

/-- Claim C3: for an `Accepted` booking with the session ended, releasing at
or before the end of the dispute window fails with no state change; after the
window, with no dispute, it succeeds, completes the booking, and every further
`releasePayment` on the result fails with no second transfer and no state
change. -/
theorem releasePayment_window_and_single (s : EscrowState) (now : Nat)
    (hst : s.booking.status = .Accepted) (hse : 0 < s.booking.sessionEndTime) :
    (now ≤ s.booking.sessionEndTime + DISPUTE_PERIOD →
      releasePayment now s = none ∧ runOp (.release now) s = s) ∧
    (s.booking.sessionEndTime + DISPUTE_PERIOD < now →
      s.booking.disputeReported = false →
      ∃ s2, releasePayment now s = some s2 ∧ s2.booking.status = .Completed ∧
        ∀ later, releasePayment later s2 = none ∧ runOp (.release later) s2 = s2) := by
  constructor
  · intro hle
    have hnone : releasePayment now s = none := by
      simp only [releasePayment]
      rw [if_neg]
      rintro ⟨-, -, hlt, -⟩
      omega
    exact ⟨hnone, by simp [runOp, applyOp, hnone]⟩
  · intro hlt hnd
    have hrel : releasePayment now s = some { s with
        booking := { s.booking with status := .Completed, updatedAt := now }
        outflows := s.outflows
          ++ (if 0 < s.booking.totalAmount * s.feeBps / 10000
              then [.feePay s.feeRecipient (s.booking.totalAmount * s.feeBps / 10000)]
              else [])
          ++ [.kolPay s.booking.kol
                (s.booking.totalAmount - s.booking.totalAmount * s.feeBps / 10000)] } := by
      simp only [releasePayment]
      rw [if_pos ⟨hst, hse, hlt, hnd⟩]
    refine ⟨_, hrel, rfl, fun later => ?_⟩
    exact ⟨releasePayment_none_of_completed _ later rfl,
      runRelease_id_of_completed _ later rfl⟩

/-- Claim C3 instance: on the demo accepted booking (session ended at
`100000`), releasing at `100000 + 86400` fails, releasing at `200000` succeeds
and completes the booking, and a further release at `300000` fails with no
change. -/
theorem releasePayment_window_and_single_instance :
    (releasePayment 186400 demoAccepted = none ∧
      runOp (.release 186400) demoAccepted = demoAccepted) ∧
    ∃ s2, releasePayment 200000 demoAccepted = some s2 ∧
      s2.booking.status = .Completed ∧
      releasePayment 300000 s2 = none ∧ runOp (.release 300000) s2 = s2 := by
  have h := releasePayment_window_and_single demoAccepted 200000 rfl (by decide)
  have h186 := releasePayment_window_and_single demoAccepted 186400 rfl (by decide)
  obtain ⟨s2, hrel, hcomp, hall⟩ := h.2 (by decide) rfl
  exact ⟨h186.1 (by decide), s2, hrel, hcomp, (hall 300000).1, (hall 300000).2⟩

/-- Claim C4: for a `Pending` booking, once `createdAt + EXPIRY_PERIOD` is
reached, `acceptBooking` fails for every caller (the KOL included) with no
state change while `handleExpiredBooking` succeeds, marks the booking
`Expired` and refunds exactly `totalAmount` to the buyer; strictly before that
instant `handleExpiredBooking` fails with no state change.  The two time
guards are complementary. -/
theorem expiry_guards_complementary (s : EscrowState) (now : Nat)
    (hst : s.booking.status = .Pending) :
    (s.booking.createdAt + EXPIRY_PERIOD ≤ now →
      (∀ caller, acceptBooking caller now s = none ∧ runOp (.accept caller now) s = s) ∧
      handleExpiredBooking now s = some { s with
        booking := { s.booking with status := .Expired, updatedAt := now }
        outflows := s.outflows ++ [.refund s.booking.buyer s.booking.totalAmount] }) ∧
    (now < s.booking.createdAt + EXPIRY_PERIOD →
      handleExpiredBooking now s = none ∧ runOp (.expire now) s = s) ∧
    (s.booking.createdAt + EXPIRY_PERIOD ≤ now ↔
      ¬ now < s.booking.createdAt + EXPIRY_PERIOD) := by
  refine ⟨?_, ?_, (Nat.not_lt).symm⟩
  · intro hexp
    constructor
    · intro caller
      have hnone : acceptBooking caller now s = none := by
        simp only [acceptBooking]
        rw [if_neg]
        rintro ⟨-, -, hlt⟩
        omega
      exact ⟨hnone, by simp [runOp, applyOp, hnone]⟩
    · simp only [handleExpiredBooking]
      rw [if_pos ⟨hst, hexp⟩]
      rfl
  · intro hearly
    have hnone : handleExpiredBooking now s = none := by
      simp only [handleExpiredBooking]
      rw [if_neg]
      rintro ⟨-, hexp⟩
      omega
    exact ⟨hnone, by simp [runOp, applyOp, hnone]⟩

/-- Claim C4 instance: the demo pending booking (created at `1000`,
`totalAmount = 1000`) cannot be accepted at `433000 = 1000 + EXPIRY_PERIOD`
but is expirable there with a full refund, and is not expirable at `432999`. -/
theorem expiry_guards_complementary_instance :
    (acceptBooking 2 433000 demoPending = none ∧
      runOp (.accept 2 433000) demoPending = demoPending) ∧
    handleExpiredBooking 433000 demoPending = some { demoPending with
      booking := { demoPending.booking with status := .Expired, updatedAt := 433000 }
      outflows := [.refund 1 1000] } ∧
    (handleExpiredBooking 432999 demoPending = none ∧
      runOp (.expire 432999) demoPending = demoPending) := by
  have h := expiry_guards_complementary demoPending 433000 rfl
  have hearly := expiry_guards_complementary demoPending 432999 rfl
  obtain ⟨haccept, hexp⟩ := h.1 (by decide)
  exact ⟨haccept 2, hexp, hearly.2.1 (by decide)⟩

/-- Claim C6 (amended): `completeSession` called by the KOL on an `Accepted`
booking at or after `toTime` records `sessionEndTime = now` and leaves the
status `Accepted` — and it does so whether or not `sessionEndTime` was already
set, overwriting any earlier value (the source has no one-shot guard). -/
theorem completeSession_sets_end_time (s : EscrowState) (caller now : Nat)
    (hk : s.booking.kol = caller) (hst : s.booking.status = .Accepted)
    (ht : s.booking.toTime ≤ now) :
    completeSession caller now s = some { s with
      booking := { s.booking with sessionEndTime := now, updatedAt := now } } ∧
    ({ s.booking with sessionEndTime := now, updatedAt := now }).status = .Accepted := by
  refine ⟨?_, hst⟩
  simp only [completeSession]
  rw [if_pos ⟨hk, hst, ht⟩]

/-- Claim C6 instance: a first `completeSession` on the demo accepted booking
at time `8000` records `sessionEndTime = 8000`. -/
theorem completeSession_sets_end_time_instance :
    completeSession 2 8000 demoSession = some { demoSession with
      booking := { demoSession.booking with sessionEndTime := 8000, updatedAt := 8000 } } ∧
    ({ demoSession.booking with sessionEndTime := 8000, updatedAt := 8000 }).status
      = .Accepted :=
  completeSession_sets_end_time demoSession 2 8000 rfl rfl (by decide)

/-- Claim C5: a `createBooking` call whose paid amount differs from
`pricePerSlot * totalSlots` is rejected: no booking is stored, no ticket is
minted, no funds are escrowed, and the booking store and both parties'
booking lists are unchanged. -/
theorem createBooking_wrong_payment_rejected (s : ContractState)
    (sender kol pps slots ft tt now msgValue : Nat) (reason : String)
    (hpay : msgValue ≠ pps * slots) :
    createBooking sender kol pps slots ft tt reason now msgValue s = none ∧
    runCreate sender kol pps slots ft tt reason now msgValue s = s ∧
    (runCreate sender kol pps slots ft tt reason now msgValue s).bookings = s.bookings ∧
    (runCreate sender kol pps slots ft tt reason now msgValue s).nftOwners = s.nftOwners ∧
    (runCreate sender kol pps slots ft tt reason now msgValue s).balance = s.balance ∧
    (runCreate sender kol pps slots ft tt reason now msgValue s).buyerBookings sender
      = s.buyerBookings sender ∧
    (runCreate sender kol pps slots ft tt reason now msgValue s).kolBookings kol
      = s.kolBookings kol := by
  have hnone : createBooking sender kol pps slots ft tt reason now msgValue s = none := by
    simp only [createBooking]
    rw [if_neg]
    rintro ⟨-, -, -, -, -, -, hp⟩
    exact hpay hp
  have hrun : runCreate sender kol pps slots ft tt reason now msgValue s = s := by
    simp [runCreate, hnone]
  exact ⟨hnone, hrun, by rw [hrun], by rw [hrun], by rw [hrun], by rw [hrun], by rw [hrun]⟩

/-- Claim C5 instance: paying `150` for `2` slots at `100` each
(`totalAmount = 200`) on the empty demo contract is rejected and changes
nothing. -/
theorem createBooking_wrong_payment_rejected_instance :
    createBooking 1 2 100 2 3600 7200 "demo" 10 150 demoContract = none ∧
    runCreate 1 2 100 2 3600 7200 "demo" 10 150 demoContract = demoContract := by
  have h := createBooking_wrong_payment_rejected demoContract 1 2 100 2 3600 7200 10 150
    "demo" (by decide)
  exact ⟨h.1, h.2.1⟩

/-- Claim C10: in every contract state, `emergencyWithdraw` by the owner
succeeds with the owner check as its only guard, transfers the entire
contract balance — which covers the escrowed `totalAmount` of every booking
still `Pending` or `Accepted` whenever the balance backs the escrow — and
leaves every booking record and both booking-list mappings unchanged; any
other caller is rejected. -/
theorem emergencyWithdraw_drains_escrow (s : ContractState) (caller : Nat) :
    (caller = s.owner →
      emergencyWithdraw caller s = some ({ s with balance := 0 }, s.balance) ∧
      ({ s with balance := 0 } : ContractState).bookings = s.bookings ∧
      ({ s with balance := 0 } : ContractState).buyerBookings = s.buyerBookings ∧
      ({ s with balance := 0 } : ContractState).kolBookings = s.kolBookings ∧
      (escrowLiability s ≤ s.balance →
        ∀ b ∈ s.bookings, b.status = .Pending ∨ b.status = .Accepted →
          b.totalAmount ≤ s.balance)) ∧
    (caller ≠ s.owner → emergencyWithdraw caller s = none) := by
  constructor
  · intro hown
    refine ⟨by simp only [emergencyWithdraw]; rw [if_pos hown], rfl, rfl, rfl, ?_⟩
    intro hbal b hb hopen
    have hmem : b.totalAmount ∈ ((s.bookings.filter fun b =>
        b.status = .Pending ∨ b.status = .Accepted).map Booking.totalAmount) :=
      List.mem_map_of_mem Booking.totalAmount
        (List.mem_filter.mpr ⟨hb, decide_eq_true hopen⟩)
    exact le_trans (List.single_le_sum (fun x _ => Nat.zero_le x) _ hmem) hbal
  · intro hother
    simp only [emergencyWithdraw]
    rw [if_neg hother]

/-- Claim C10 instance: on the demo contract (owner `7`, balance `2100`
backing the `1000`-wei escrows of one `Pending` and one `Accepted` demo
booking) the owner withdraws the full `2100` and the booking store is
untouched, while caller `3` is rejected. -/
theorem emergencyWithdraw_drains_escrow_instance :
    emergencyWithdraw 7 demoContractFull
      = some ({ demoContractFull with balance := 0 }, 2100) ∧
    emergencyWithdraw 3 demoContractFull = none := by
  have h := emergencyWithdraw_drains_escrow demoContractFull 7
  have h2 := emergencyWithdraw_drains_escrow demoContractFull 3
  exact ⟨(h.1 rfl).1, h2.2 (by decide)⟩

/-- `updateReputation` keeps the token counter and every token's `isKOL`
flag (the flag is copied, not reassigned). -/
theorem updateReputation_frame {caller user onchain social tokenH txc vol comp
    avg now : Nat} {s s2 : NFTState}
    (h : updateReputation caller user onchain social tokenH txc vol comp avg now s
      = some s2) :
    s2.tokenCount = s.tokenCount ∧ s2.userToTokenId = s.userToTokenId ∧
    (∀ t, (s2.reputationData t).isKOL = (s.reputationData t).isKOL) := by
  simp only [updateReputation] at h
  split at h
  · split at h
    · obtain rfl := Option.some.inj h
      refine ⟨rfl, rfl, fun t => ?_⟩
      by_cases ht : t = s.userToTokenId user <;> simp [ht]
    · simp at h
  · simp at h

/-- `setKOLStatus` with flag `true` keeps the token counter and preserves
every `isKOL` flag that is already `true`. -/
theorem setKOLStatus_true {caller user : Nat} {s s2 : NFTState}
    (h : setKOLStatus caller user true s = some s2) :
    s2.tokenCount = s.tokenCount ∧
    (∀ t, (s.reputationData t).isKOL = true → (s2.reputationData t).isKOL = true) := by
  simp only [setKOLStatus] at h
  split at h
  · split at h
    · obtain rfl := Option.some.inj h
      refine ⟨rfl, fun t hk => ?_⟩
      by_cases ht : t = s.userToTokenId user <;> simp [ht, hk]
    · simp at h
  · simp at h

/-- `mintReputationNFT` bumps the token counter and writes only the fresh
token's slot. -/
theorem mint_frame {recipient now : Nat} {s s2 : NFTState}
    (h : mintReputationNFT recipient now s = some s2) :
    s2.tokenCount = s.tokenCount + 1 ∧
    (∀ t, t ≤ s.tokenCount → s2.reputationData t = s.reputationData t) := by
  simp only [mintReputationNFT] at h
  split at h
  · obtain rfl := Option.some.inj h
    refine ⟨rfl, fun t ht => ?_⟩
    have hne : t ≠ s.tokenCount + 1 := by omega
    simp [hne]
  · simp at h

/-- The tracker-side `_updateUserReputation` never touches the tracker state,
the token counter, or any `isKOL` flag. -/
theorem updateUserRep_frame {u now : Nat} {sys sys2 : RepSystem}
    (h : updateUserRep u now sys = some sys2) :
    sys2.tracker = sys.tracker ∧ sys2.nft.tokenCount = sys.nft.tokenCount ∧
    (∀ t, (sys2.nft.reputationData t).isKOL = (sys.nft.reputationData t).isKOL) := by
  simp only [updateUserRep] at h
  split at h
  · obtain rfl := Option.some.inj h
    exact ⟨rfl, rfl, fun t => rfl⟩
  · rw [Option.map_eq_some'] at h
    obtain ⟨nft2, hn, rfl⟩ := h
    have hf := updateReputation_frame hn
    exact ⟨rfl, hf.1, hf.2.2⟩

/-- `bulkUpdateReputations`'s fold never touches the tracker state, the token
counter, or any `isKOL` flag. -/
theorem bulk_frame : ∀ (users : List Nat) (now : Nat) (sys sys2 : RepSystem),
    users.foldlM (fun acc u => updateUserRep u now acc) sys = some sys2 →
    sys2.tracker = sys.tracker ∧ sys2.nft.tokenCount = sys.nft.tokenCount ∧
    (∀ t, (sys2.nft.reputationData t).isKOL = (sys.nft.reputationData t).isKOL) := by
  intro users
  induction users with
  | nil =>
    intro now sys sys2 h
    obtain rfl := Option.some.inj h
    exact ⟨rfl, rfl, fun t => rfl⟩
  | cons u rest ih =>
    intro now sys sys2 h
    rw [List.foldlM_cons, Option.bind_eq_bind, Option.bind_eq_some] at h
    obtain ⟨sysMid, h1, h2⟩ := h
    have hf1 := updateUserRep_frame h1
    have hf2 := ih now sysMid sys2 h2
    exact ⟨hf2.1.trans hf1.1, hf2.2.1.trans hf1.2.1,
      fun t => (hf2.2.2 t).trans (hf1.2.2 t)⟩

/-- When the tracker is an authorized updater of the NFT,
`_updateUserReputation` always succeeds. -/
theorem updateUserRep_succeeds (u now : Nat) {sys : RepSystem}
    (hauth : sys.nft.authorizedUpdaters sys.trackerAddr = true) :
    ∃ sys2, updateUserRep u now sys = some sys2 := by
  simp only [updateUserRep]
  split
  · exact ⟨sys, rfl⟩
  next htok =>
    simp only [updateReputation]
    rw [if_pos (Or.inl hauth), if_pos htok]
    exact ⟨_, rfl⟩

/-- Every successful reputation-system call keeps every already-processed
transaction id marked processed (the set only grows). -/
theorem applyRepOp_processed {op : RepOp} {sys sys2 : RepSystem} {tx : Nat}
    (happ : applyRepOp op sys = some sys2)
    (h : sys.tracker.processed tx = true) :
    sys2.tracker.processed tx = true := by
  cases op with
  | track u v iw tx2 now =>
    simp only [applyRepOp, trackTransaction] at happ
    split at happ
    · rw [(updateUserRep_frame happ).1]
      by_cases hx : tx = tx2 <;> simp [hx, h]
    · simp at happ
  | bookingCreated c b now =>
    simp only [applyRepOp, trackBookingCreated] at happ
    split at happ
    · rw [(updateUserRep_frame happ).1]; exact h
    · simp at happ
  | bookingAccepted c k now =>
    simp only [applyRepOp, trackBookingAccepted] at happ
    split at happ
    · rw [Option.bind_eq_some] at happ
      obtain ⟨sysA, h1, h2⟩ := happ
      have htrA := (updateUserRep_frame h1).1
      have hmidA : sysA.tracker.processed tx = true := by rw [htrA]; exact h
      split at h2
      · rw [Option.map_eq_some'] at h2
        obtain ⟨nftB, hB, rfl⟩ := h2
        exact hmidA
      · obtain rfl := Option.some.inj h2
        exact hmidA
    · simp at happ
  | bookingCompleted c k b rating now =>
    simp only [applyRepOp, trackBookingCompleted] at happ
    split at happ
    · rw [Option.bind_eq_some] at happ
      obtain ⟨sysA, h1, h2⟩ := happ
      rw [(updateUserRep_frame h2).1, (updateUserRep_frame h1).1]
      exact h
    · simp at happ
  | tokenHoldings c u bal now =>
    simp only [applyRepOp, updateTokenHoldings] at happ
    split at happ
    · rw [(updateUserRep_frame happ).1]; exact h
    · simp at happ
  | socialUpdate c u m now =>
    simp only [applyRepOp, updateSocialMetrics] at happ
    split at happ
    · rw [(updateUserRep_frame happ).1]; exact h
    · simp at happ
  | register sender now =>
    simp only [applyRepOp, registerUser] at happ
    rw [Option.map_eq_some'] at happ
    obtain ⟨nft2, hn, rfl⟩ := happ
    exact h
  | setConfig c cfg =>
    simp only [applyRepOp, updatePointConfig] at happ
    split at happ
    · obtain rfl := Option.some.inj happ; exact h
    · simp at happ
  | bulkUpdate c users now =>
    simp only [applyRepOp, bulkUpdateReputations] at happ
    split at happ
    · rw [(bulk_frame _ _ _ _ happ).1]; exact h
    · simp at happ
  | mint recipient now =>
    simp only [applyRepOp] at happ
    rw [Option.map_eq_some'] at happ
    obtain ⟨nft2, hn, rfl⟩ := happ
    exact h
  | updateRep c u onchain social tokenH txc vol comp avg now =>
    simp only [applyRepOp] at happ
    rw [Option.map_eq_some'] at happ
    obtain ⟨nft2, hn, rfl⟩ := happ
    exact h
  | setKOL c u flag =>
    simp only [applyRepOp] at happ
    rw [Option.map_eq_some'] at happ
    obtain ⟨nft2, hn, rfl⟩ := happ
    exact h
  | setThresholds c b si g d =>
    simp only [applyRepOp] at happ
    rw [Option.map_eq_some'] at happ
    obtain ⟨nft2, hn, rfl⟩ := happ
    exact h
  | setUpdater c updater authorized =>
    simp only [applyRepOp] at happ
    rw [Option.map_eq_some'] at happ
    obtain ⟨nft2, hn, rfl⟩ := happ
    exact h

/-- A processed transaction id stays processed across any sequence of
reputation-system calls. -/
theorem runRepOps_processed_mono (ops : List RepOp) (sys : RepSystem) (tx : Nat)
    (h : sys.tracker.processed tx = true) :
    (runRepOps ops sys).tracker.processed tx = true := by
  induction ops generalizing sys with
  | nil => exact h
  | cons op rest ih =>
    apply ih
    cases happ : applyRepOp op sys with
    | none => simpa [runRepOp, happ] using h
    | some sys2 => simpa [runRepOp, happ] using applyRepOp_processed happ h

/-- A successful `trackTransaction` marks its hash processed and bumps the
user's transaction and volume counters by exactly one call's worth. -/
theorem trackTransaction_frame {user value iw tx now : Nat} {sys sys2 : RepSystem}
    (h : trackTransaction user value iw tx now sys = some sys2) :
    sys2.tracker.processed tx = true ∧
    (sys2.tracker.activities user).totalTransactions
      = (sys.tracker.activities user).totalTransactions + 1 ∧
    (sys2.tracker.activities user).totalVolumeTraded
      = (sys.tracker.activities user).totalVolumeTraded + value := by
  simp only [trackTransaction] at h
  split at h
  · rw [(updateUserRep_frame h).1]
    refine ⟨by simp, by simp, by simp⟩
  · simp at h

/-- Claim C7: a `trackTransaction` on a fresh transaction id succeeds (with
the tracker authorized on the NFT), increments the user's `totalTransactions`
by one and `totalVolumeTraded` by the value, and marks the id processed;
afterwards, whatever further calls run, any `trackTransaction` replaying the
same id is rejected before any mutation, leaving the whole state unchanged. -/
theorem trackTransaction_exactly_once (sys : RepSystem) (user value iw tx now : Nat)
    (hfresh : sys.tracker.processed tx = false)
    (hauth : sys.nft.authorizedUpdaters sys.trackerAddr = true) :
    ∃ sys2, trackTransaction user value iw tx now sys = some sys2 ∧
      (sys2.tracker.activities user).totalTransactions
        = (sys.tracker.activities user).totalTransactions + 1 ∧
      (sys2.tracker.activities user).totalVolumeTraded
        = (sys.tracker.activities user).totalVolumeTraded + value ∧
      sys2.tracker.processed tx = true ∧
      ∀ ops user2 value2 iw2 now2,
        applyRepOp (.track user2 value2 iw2 tx now2) (runRepOps ops sys2) = none ∧
        runRepOp (.track user2 value2 iw2 tx now2) (runRepOps ops sys2)
          = runRepOps ops sys2 := by
  have hex : ∃ s2, trackTransaction user value iw tx now sys = some s2 := by
    simp only [trackTransaction]
    rw [if_pos hfresh]
    exact updateUserRep_succeeds _ _ hauth
  obtain ⟨sys2, htrack⟩ := hex
  have hfr := trackTransaction_frame htrack
  refine ⟨sys2, htrack, hfr.2.1, hfr.2.2, hfr.1, ?_⟩
  intro ops user2 value2 iw2 now2
  have hp := runRepOps_processed_mono ops sys2 tx hfr.1
  have hcond : ¬ (runRepOps ops sys2).tracker.processed tx = false := by simp [hp]
  have hnone : applyRepOp (.track user2 value2 iw2 tx now2) (runRepOps ops sys2)
      = none := by
    simp only [applyRepOp, trackTransaction]
    rw [if_neg hcond]
  exact ⟨hnone, by simp [runRepOp, hnone]⟩

/-- Claim C7 instance: on the demo deployment, tracking hash `42` for user `5`
with value `1000` succeeds and sets the counters, and replaying hash `42`
immediately afterwards is rejected. -/
theorem trackTransaction_exactly_once_instance :
    ∃ sys2, trackTransaction 5 1000 6 42 500 sysDemo = some sys2 ∧
      (sys2.tracker.activities 5).totalTransactions
        = (sysDemo.tracker.activities 5).totalTransactions + 1 ∧
      (sys2.tracker.activities 5).totalVolumeTraded
        = (sysDemo.tracker.activities 5).totalVolumeTraded + 1000 ∧
      sys2.tracker.processed 42 = true ∧
      applyRepOp (.track 5 7 6 42 900) sys2 = none := by
  obtain ⟨sys2, ht, h1, h2, h3, h4⟩ :=
    trackTransaction_exactly_once sysDemo 5 1000 6 42 500 rfl rfl
  exact ⟨sys2, ht, h1, h2, h3, (h4 [] 5 7 6 900).1⟩

/-- With the default thresholds, `_calculateLevel` assigns Diamond from 5000,
Gold on [3000, 5000), Silver on [1000, 3000) and Bronze below 1000. -/
theorem calculateLevel_default (t : Nat) :
    (5000 ≤ t → calculateLevel defaultThresholds t = .Diamond) ∧
    (3000 ≤ t → t < 5000 → calculateLevel defaultThresholds t = .Gold) ∧
    (1000 ≤ t → t < 3000 → calculateLevel defaultThresholds t = .Silver) ∧
    (t < 1000 → calculateLevel defaultThresholds t = .Bronze) := by
  simp only [calculateLevel, defaultThresholds]
  refine ⟨fun h => ?_, fun h1 h2 => ?_, fun h1 h2 => ?_, fun h => ?_⟩
  · rw [if_pos h]
  · rw [if_neg (by omega), if_pos h1]
  · rw [if_neg (by omega), if_neg (by omega), if_pos h1]
  · rw [if_neg (by omega), if_neg (by omega), if_neg (by omega)]

/-- A successful `updateReputation` stores the weighted total score and the
level derived from it by the configured thresholds. -/
theorem updateReputation_result {caller user onchain social tokenH txc vol comp
    avg now : Nat} {s s2 : NFTState}
    (h : updateReputation caller user onchain social tokenH txc vol comp avg now s
      = some s2) :
    (s2.reputationData (s.userToTokenId user)).totalScore
      = (onchain * 50 + social * 40 + tokenH * 10) / 100 ∧
    (s2.reputationData (s.userToTokenId user)).level
      = calculateLevel s.thresholds ((onchain * 50 + social * 40 + tokenH * 10) / 100) := by
  simp only [updateReputation] at h
  split at h
  · split at h
    · obtain rfl := Option.some.inj h
      constructor <;> simp
    · simp at h
  · simp at h

/-- A successful `_updateUserReputation` stores the weighted total of the
three component scores recomputed from the tracker counters, and the level
derived from it. -/
theorem updateUserRep_result {user now : Nat} {sys sys2 : RepSystem}
    (htok : ¬ sys.nft.userToTokenId user = 0)
    (h : updateUserRep user now sys = some sys2) :
    (sys2.nft.reputationData (sys.nft.userToTokenId user)).totalScore
      = (calculateOnchainScore sys.tracker user * 50
          + calculateSocialScore sys.tracker user * 40
          + calculateTokenHoldingScore sys.tracker user * 10) / 100 ∧
    (sys2.nft.reputationData (sys.nft.userToTokenId user)).level
      = calculateLevel sys.nft.thresholds
          ((calculateOnchainScore sys.tracker user * 50
            + calculateSocialScore sys.tracker user * 40
            + calculateTokenHoldingScore sys.tracker user * 10) / 100) := by
  simp only [updateUserRep] at h
  rw [if_neg htok] at h
  rw [Option.map_eq_some'] at h
  obtain ⟨nft2, hn, rfl⟩ := h
  exact updateReputation_result hn

/-- Claim C8: for every tracker state (activity counters, social metrics,
token holdings) and point configuration, refreshing a registered user's
reputation stores
`totalScore = (onchainScore*50 + socialScore*40 + tokenHoldingScore*10) / 100`
(integer division) and assigns, with the default thresholds, Diamond from
5000, Gold on [3000, 5000), Silver on [1000, 3000) and Bronze below 1000. -/
theorem totalScore_weighted_and_tier (sys : RepSystem) (user now : Nat)
    (htok : ¬ sys.nft.userToTokenId user = 0)
    (hauth : sys.nft.authorizedUpdaters sys.trackerAddr = true)
    (hth : sys.nft.thresholds = defaultThresholds) :
    ∃ sys2, updateUserRep user now sys = some sys2 ∧
      (sys2.nft.reputationData (sys.nft.userToTokenId user)).totalScore
        = (calculateOnchainScore sys.tracker user * 50
            + calculateSocialScore sys.tracker user * 40
            + calculateTokenHoldingScore sys.tracker user * 10) / 100 ∧
      (5000 ≤ (sys2.nft.reputationData (sys.nft.userToTokenId user)).totalScore →
        (sys2.nft.reputationData (sys.nft.userToTokenId user)).level = .Diamond) ∧
      (3000 ≤ (sys2.nft.reputationData (sys.nft.userToTokenId user)).totalScore →
        (sys2.nft.reputationData (sys.nft.userToTokenId user)).totalScore < 5000 →
        (sys2.nft.reputationData (sys.nft.userToTokenId user)).level = .Gold) ∧
      (1000 ≤ (sys2.nft.reputationData (sys.nft.userToTokenId user)).totalScore →
        (sys2.nft.reputationData (sys.nft.userToTokenId user)).totalScore < 3000 →
        (sys2.nft.reputationData (sys.nft.userToTokenId user)).level = .Silver) ∧
      ((sys2.nft.reputationData (sys.nft.userToTokenId user)).totalScore < 1000 →
        (sys2.nft.reputationData (sys.nft.userToTokenId user)).level = .Bronze) := by
  obtain ⟨sys2, hupd⟩ := updateUserRep_succeeds user now hauth
  have hres := updateUserRep_result htok hupd
  have hlv := calculateLevel_default ((calculateOnchainScore sys.tracker user * 50
    + calculateSocialScore sys.tracker user * 40
    + calculateTokenHoldingScore sys.tracker user * 10) / 100)
  refine ⟨sys2, hupd, hres.1, ?_, ?_, ?_, ?_⟩
  · intro h5
    rw [hres.1] at h5
    rw [hres.2, hth]
    exact hlv.1 h5
  · intro h3 h5
    rw [hres.1] at h3 h5
    rw [hres.2, hth]
    exact hlv.2.1 h3 h5
  · intro h1 h3
    rw [hres.1] at h1 h3
    rw [hres.2, hth]
    exact hlv.2.2.1 h1 h3
  · intro h1
    rw [hres.1] at h1
    rw [hres.2, hth]
    exact hlv.2.2.2 h1

/-- Claim C8 instance: refreshing demo user `5` (all counters zero) stores the
weighted total and a Bronze level. -/
theorem totalScore_weighted_and_tier_instance :
    ∃ sys2, updateUserRep 5 77 sysDemo = some sys2 ∧
      (sys2.nft.reputationData (sysDemo.nft.userToTokenId 5)).totalScore
        = (calculateOnchainScore sysDemo.tracker 5 * 50
            + calculateSocialScore sysDemo.tracker 5 * 40
            + calculateTokenHoldingScore sysDemo.tracker 5 * 10) / 100 ∧
      ((sys2.nft.reputationData (sysDemo.nft.userToTokenId 5)).totalScore < 1000 →
        (sys2.nft.reputationData (sysDemo.nft.userToTokenId 5)).level = .Bronze) := by
  obtain ⟨sys2, h1, h2, h3, h4, h5, h6⟩ :=
    totalScore_weighted_and_tier sysDemo 5 77 (by decide) rfl rfl
  exact ⟨sys2, h1, h2, h6⟩

/-- A single reputation-system call that is not a direct `setKOLStatus` with
flag `false` preserves a set `isKOL` flag of any already-minted token. -/
theorem repOp_preserves_KOL (op : RepOp) (sys : RepSystem) (tid : Nat)
    (hw : writesKOLFalse op = false)
    (htid : tid ≤ sys.nft.tokenCount)
    (hk : (sys.nft.reputationData tid).isKOL = true) :
    tid ≤ (runRepOp op sys).nft.tokenCount ∧
    ((runRepOp op sys).nft.reputationData tid).isKOL = true := by
  cases happ : applyRepOp op sys with
  | none => simp only [runRepOp, happ, Option.getD_none]; exact ⟨htid, hk⟩
  | some sys2 =>
    simp only [runRepOp, happ, Option.getD_some]
    cases op with
    | track u v iw tx now =>
      simp only [applyRepOp, trackTransaction] at happ
      split at happ
      · have hf := updateUserRep_frame happ
        exact ⟨by rw [hf.2.1]; exact htid, by rw [hf.2.2 tid]; exact hk⟩
      · simp at happ
    | bookingCreated c b now =>
      simp only [applyRepOp, trackBookingCreated] at happ
      split at happ
      · have hf := updateUserRep_frame happ
        exact ⟨by rw [hf.2.1]; exact htid, by rw [hf.2.2 tid]; exact hk⟩
      · simp at happ
    | bookingAccepted c k now =>
      simp only [applyRepOp, trackBookingAccepted] at happ
      split at happ
      · rw [Option.bind_eq_some] at happ
        obtain ⟨sysA, h1, h2⟩ := happ
        have hfA := updateUserRep_frame h1
        have htidA : tid ≤ sysA.nft.tokenCount := by rw [hfA.2.1]; exact htid
        have hkA : (sysA.nft.reputationData tid).isKOL = true := by
          rw [hfA.2.2 tid]; exact hk
        split at h2
        · rw [Option.map_eq_some'] at h2
          obtain ⟨nftB, hB, rfl⟩ := h2
          have hs := setKOLStatus_true hB
          constructor
          · show tid ≤ nftB.tokenCount
            rw [hs.1]; exact htidA
          · show (nftB.reputationData tid).isKOL = true
            exact hs.2 tid hkA
        · obtain rfl := Option.some.inj h2
          exact ⟨htidA, hkA⟩
      · simp at happ
    | bookingCompleted c k b rating now =>
      simp only [applyRepOp, trackBookingCompleted] at happ
      split at happ
      · rw [Option.bind_eq_some] at happ
        obtain ⟨sysA, h1, h2⟩ := happ
        have hfA := updateUserRep_frame h1
        have hfB := updateUserRep_frame h2
        exact ⟨by rw [hfB.2.1, hfA.2.1]; exact htid,
          by rw [hfB.2.2 tid, hfA.2.2 tid]; exact hk⟩
      · simp at happ
    | tokenHoldings c u bal now =>
      simp only [applyRepOp, updateTokenHoldings] at happ
      split at happ
      · have hf := updateUserRep_frame happ
        exact ⟨by rw [hf.2.1]; exact htid, by rw [hf.2.2 tid]; exact hk⟩
      · simp at happ
    | socialUpdate c u m now =>
      simp only [applyRepOp, updateSocialMetrics] at happ
      split at happ
      · have hf := updateUserRep_frame happ
        exact ⟨by rw [hf.2.1]; exact htid, by rw [hf.2.2 tid]; exact hk⟩
      · simp at happ
    | register sender now =>
      simp only [applyRepOp, registerUser] at happ
      rw [Option.map_eq_some'] at happ
      obtain ⟨nft2, hn, rfl⟩ := happ
      have hm := mint_frame hn
      constructor
      · show tid ≤ nft2.tokenCount
        rw [hm.1]; omega
      · show (nft2.reputationData tid).isKOL = true
        rw [hm.2 tid htid]; exact hk
    | setConfig c cfg =>
      simp only [applyRepOp, updatePointConfig] at happ
      split at happ
      · obtain rfl := Option.some.inj happ
        exact ⟨htid, hk⟩
      · simp at happ
    | bulkUpdate c users now =>
      simp only [applyRepOp, bulkUpdateReputations] at happ
      split at happ
      · have hf := bulk_frame users now sys sys2 happ
        exact ⟨by rw [hf.2.1]; exact htid, by rw [hf.2.2 tid]; exact hk⟩
      · simp at happ
    | mint recipient now =>
      simp only [applyRepOp] at happ
      rw [Option.map_eq_some'] at happ
      obtain ⟨nft2, hn, rfl⟩ := happ
      have hm := mint_frame hn
      constructor
      · show tid ≤ nft2.tokenCount
        rw [hm.1]; omega
      · show (nft2.reputationData tid).isKOL = true
        rw [hm.2 tid htid]; exact hk
    | updateRep c u onchain social tokenH txc vol comp avg now =>
      simp only [applyRepOp] at happ
      rw [Option.map_eq_some'] at happ
      obtain ⟨nft2, hn, rfl⟩ := happ
      have hf := updateReputation_frame hn
      constructor
      · show tid ≤ nft2.tokenCount
        rw [hf.1]; exact htid
      · show (nft2.reputationData tid).isKOL = true
        rw [hf.2.2 tid]; exact hk
    | setKOL c u flag =>
      cases flag with
      | false => simp [writesKOLFalse] at hw
      | true =>
        simp only [applyRepOp] at happ
        rw [Option.map_eq_some'] at happ
        obtain ⟨nft2, hn, rfl⟩ := happ
        have hs := setKOLStatus_true hn
        constructor
        · show tid ≤ nft2.tokenCount
          rw [hs.1]; exact htid
        · show (nft2.reputationData tid).isKOL = true
          exact hs.2 tid hk
    | setThresholds c b si g d =>
      simp only [applyRepOp, updateLevelThresholds] at happ
      rw [Option.map_eq_some'] at happ
      obtain ⟨nft2, hn, rfl⟩ := happ
      split at hn
      · obtain rfl := Option.some.inj hn
        exact ⟨htid, hk⟩
      · simp at hn
    | setUpdater c updater authorized =>
      simp only [applyRepOp, setAuthorizedUpdater] at happ
      rw [Option.map_eq_some'] at happ
      obtain ⟨nft2, hn, rfl⟩ := happ
      split at hn
      · obtain rfl := Option.some.inj hn
        exact ⟨htid, hk⟩
      · simp at hn

/-- Claim C9 (amended): once a minted token's `isKOL` flag is true, every
sequence of reputation-system calls that contains no direct
`ReputationNFT.setKOLStatus` call with flag `false` keeps it true; the
tracker itself only ever sets the flag to `true`, so only that direct
owner/authorized-updater entry point can revert it. -/
theorem isKOL_preserved_without_direct_reset : ∀ (ops : List RepOp)
    (sys : RepSystem) (tid : Nat),
    (∀ op ∈ ops, writesKOLFalse op = false) →
    tid ≤ sys.nft.tokenCount →
    (sys.nft.reputationData tid).isKOL = true →
    ((runRepOps ops sys).nft.reputationData tid).isKOL = true := by
  intro ops
  induction ops with
  | nil => intro sys tid _ _ hk; exact hk
  | cons op rest ih =>
    intro sys tid hops htid hk
    have hstep := repOp_preserves_KOL op sys tid
      (hops op (List.mem_cons_self op rest)) htid hk
    exact ih (runRepOp op sys) tid
      (fun o ho => hops o (List.mem_cons_of_mem op ho)) hstep.1 hstep.2

/-- Claim C9 (amended) instance: on the demo deployment where the KOL flag of
token `1` was set by a booking acceptance, a transaction, a redundant
`setKOLStatus true` and a thresholds change leave the flag true. -/
theorem isKOL_preserved_without_direct_reset_instance :
    ((runRepOps [.track 5 500 6 43 1100, .setKOL 8 5 true, .setThresholds 8 0 1 2 3]
        sysAfterAccept).nft.reputationData 1).isKOL = true :=
  isKOL_preserved_without_direct_reset
    [.track 5 500 6 43 1100, .setKOL 8 5 true, .setThresholds 8 0 1 2 3]
    sysAfterAccept 1 (by decide) (by decide) rfl

/-- Claim C9 counterexample: the claim as stated is false — after the first
booking acceptance set `isKOL` of token `1` to true, the NFT owner calls
`setKOLStatus(user, false)` (a reputation-component operation) and the flag
reverts to false. -/
theorem kol_flag_can_revert :
    (sysAfterAccept.nft.reputationData 1).isKOL = true ∧
    ((runRepOp (.setKOL 8 5 false) sysAfterAccept).nft.reputationData 1).isKOL
      = false :=
  ⟨rfl, rfl⟩

/-- Claim C6 counterexample: after a first `completeSession` at `8000` set
`sessionEndTime`, a second `completeSession` at `9000` is not rejected — it
succeeds and overwrites `sessionEndTime` with `9000`. -/
theorem completeSession_second_call_succeeds :
    demoCompletedOnce.booking.sessionEndTime = 8000 ∧
    completeSession 2 9000 demoCompletedOnce = some { demoCompletedOnce with
      booking := { demoCompletedOnce.booking with sessionEndTime := 9000, updatedAt := 9000 } } ∧
    (runOp (.complete 2 9000) demoCompletedOnce).booking.sessionEndTime = 9000 :=
  ⟨rfl, rfl, rfl⟩

end SoRe
